import Mathlib

/-!
Verification of the snapshot generation and period-comparison pipeline of the
`agency-reports` repository.

The development shallowly embeds the TypeScript sources:

* `calculateChange`, `getMonthDateRange`, `getPreviousMonthDateRange` from
  `packages/api/src/connectors/google-analytics.connector.ts`;
* `generateSnapshot` from `packages/api/src/services/snapshot.service.ts`,
  together with the snapshot route handler from
  `packages/api/src/routes/snapshot.routes.ts`.

Modelling conventions:

* TypeScript `number` values flowing through the comparison engine are embedded
  as `ℚ` (exact arithmetic in place of IEEE doubles).
* A JavaScript `Date` constructed at local midnight is embedded as its day
  number (days since 1970-01-01), assuming a UTC runtime, so that the
  `toISOString().split("T")[0]` rendering used by `formatDate` agrees with the
  civil date of the day number.  `formatDate`'s string rendering is elided: a
  day number and its ISO date string are in bijection, and every property
  proved here is about the denoted calendar day.
* The `new Date(year, monthIndex, day)` constructor is embedded following the
  ECMAScript specification: a year argument in 0..99 is mapped to 1900 + year,
  the month index is normalised with floored division/modulo by 12, and the
  day argument offsets from the first day of the normalised month (so day 0 is
  the last day of the preceding month).
* Database reads, upstream GA4 fetches and content-storage writes performed by
  `generateSnapshot` are effects; their outcomes are supplied by an explicit
  environment record, and the calls the service makes are accumulated in an
  event trace so ordering and absence of calls can be stated.
-/

namespace AgencyReports

/-! ## Calendar arithmetic

Day numbers (days since the epoch 1970-01-01) for proleptic Gregorian civil
dates.  `daysFromCivil` is the floored-division form of the standard
civil-from-days conversion; Lean's `Int` division `/` is floored division for
positive divisors, matching the arithmetic JavaScript's `MakeDay` performs. -/

/-- Day number (days since 1970-01-01) of the civil date `(y, m, d)`; for
`1 ≤ m ≤ 12` and `1 ≤ d ≤ daysInMonth y m` this is the Gregorian calendar
position, and the `d` argument extends linearly outside that range (day 0 is
the day before the first of the month). -/
def daysFromCivil (y m d : ℤ) : ℤ :=
  (if m ≤ 2 then y - 1 else y) / 400 * 146097
  + ((if m ≤ 2 then y - 1 else y) % 400) * 365
  + ((if m ≤ 2 then y - 1 else y) % 400) / 4
  - ((if m ≤ 2 then y - 1 else y) % 400) / 100
  + (153 * (if m ≤ 2 then m + 9 else m - 3) + 2) / 5
  + d - 1 - 719468

/-- Number of days of month `m` of year `y` in the proleptic Gregorian
calendar (Gregorian leap rule). -/
def daysInMonth (y m : ℤ) : ℤ :=
  if m = 2 then (if (y % 4 = 0 ∧ y % 100 ≠ 0) ∨ y % 400 = 0 then 29 else 28)
  else if m = 4 ∨ m = 6 ∨ m = 9 ∨ m = 11 then 30 else 31

theorem daysFromCivil_day (y m d : ℤ) :
    daysFromCivil y m d = daysFromCivil y m 1 + (d - 1) := by
  unfold daysFromCivil
  ring

theorem daysInMonth_pos (y m : ℤ) : 28 ≤ daysInMonth y m := by
  unfold daysInMonth
  split_ifs <;> omega

/-- Stepping from the first of a month to the first of the next month within a
year advances the day number by that month's length. -/
theorem daysFromCivil_next_month (y m : ℤ) (h1 : 1 ≤ m) (h2 : m ≤ 11) :
    daysFromCivil y (m + 1) 1 = daysFromCivil y m 1 + daysInMonth y m := by
  interval_cases m <;>
    (simp only [daysFromCivil, daysInMonth]; norm_num; try split_ifs) <;> omega

/-- Stepping from December 1 to January 1 of the next year advances the day
number by 31. -/
theorem daysFromCivil_next_year (y : ℤ) :
    daysFromCivil (y + 1) 1 1 = daysFromCivil y 12 1 + 31 := by
  simp only [daysFromCivil]
  norm_num
  omega

/-! Months indexed linearly: rank `k = 12 * y + (m - 1)` enumerates the months
of all years in chronological order.  `monthFirstDay k` is the day number of
the first day of the month of rank `k`. -/

/-- Linear index of month `m` of year `y`. -/
def monthRank (y m : ℤ) : ℤ := 12 * y + (m - 1)

/-- Day number of the first day of the month with linear index `k`. -/
def monthFirstDay (k : ℤ) : ℤ := daysFromCivil (k / 12) (k % 12 + 1) 1

theorem monthFirstDay_rank (y m : ℤ) (h1 : 1 ≤ m) (h2 : m ≤ 12) :
    monthFirstDay (monthRank y m) = daysFromCivil y m 1 := by
  unfold monthFirstDay monthRank
  have hq : (12 * y + (m - 1)) / 12 = y := by omega
  have hr : (12 * y + (m - 1)) % 12 + 1 = m := by omega
  rw [hq, hr]

theorem monthFirstDay_step (k : ℤ) :
    monthFirstDay (k + 1) = monthFirstDay k + daysInMonth (k / 12) (k % 12 + 1) := by
  unfold monthFirstDay
  rcases eq_or_ne (k % 12) 11 with h | h
  · have hq : (k + 1) / 12 = k / 12 + 1 := by omega
    have hr : (k + 1) % 12 + 1 = 1 := by omega
    have h12 : k % 12 + 1 = 12 := by omega
    have hdim : daysInMonth (k / 12) 12 = 31 := by unfold daysInMonth; norm_num
    rw [hq, hr, h12, daysFromCivil_next_year, hdim]
  · have hq : (k + 1) / 12 = k / 12 := by omega
    have hr : (k + 1) % 12 + 1 = (k % 12 + 1) + 1 := by omega
    rw [hq, hr, daysFromCivil_next_month]
    · omega
    · omega

theorem monthFirstDay_le_step (k : ℤ) :
    monthFirstDay k + 28 ≤ monthFirstDay (k + 1) := by
  rw [monthFirstDay_step]
  have := daysInMonth_pos (k / 12) (k % 12 + 1)
  omega

theorem monthFirstDay_mono : Monotone monthFirstDay := by
  have step : ∀ k : ℤ, monthFirstDay k ≤ monthFirstDay (k + 1) := by
    intro k
    have := monthFirstDay_le_step k
    omega
  intro a b hab
  have h : ∀ n : ℕ, monthFirstDay a ≤ monthFirstDay (a + n) := by
    intro n
    induction n with
    | zero => simp
    | succ n ih =>
        have hs := monthFirstDay_le_step (a + (n : ℤ))
        have hc : (a + ((n + 1 : ℕ) : ℤ)) = a + (n : ℤ) + 1 := by push_cast; ring
        rw [hc]
        omega
  have hn : b = a + ((b - a).toNat : ℤ) := by omega
  rw [hn]
  exact h (b - a).toNat

/-! ## The embedded Period Calculator

`getMonthDateRange` / `getPreviousMonthDateRange` from
`google-analytics.connector.ts`:

```ts
export function getMonthDateRange(year: number, month: number): DateRange {
  const startDate = new Date(year, month - 1, 1);
  const endDate = new Date(year, month, 0); // Last day of month
  return { startDate: formatDate(startDate), endDate: formatDate(endDate) };
}
export function getPreviousMonthDateRange(year: number, month: number): DateRange {
  const prevMonth = month === 1 ? 12 : month - 1;
  const prevYear = month === 1 ? year - 1 : year;
  return getMonthDateRange(prevYear, prevMonth);
}
```
-/

/-- ECMAScript two-digit-year rule of the `Date` constructor: a year argument
in 0..99 denotes 1900 + year. -/
def mkJsYear (y : ℤ) : ℤ := if 0 ≤ y ∧ y ≤ 99 then 1900 + y else y

/-- ECMAScript `MakeDay yr mIdx d` (day-number granularity): normalise the
0-based month index by floored division, then offset `d - 1` days from the
first of that month. -/
def jsMakeDay (yr mIdx d : ℤ) : ℤ :=
  daysFromCivil (yr + mIdx / 12) (mIdx % 12 + 1) d

/-- Day number of `new Date(y, mIdx, d)` at a UTC runtime (two-digit-year rule
applied, then `MakeDay`). -/
def newJsDate (y mIdx d : ℤ) : ℤ := jsMakeDay (mkJsYear y) mIdx d

/-- Inclusive date range; both bounds are day numbers (the source stores their
ISO `YYYY-MM-DD` renderings). -/
structure DateRange where
  startDate : ℤ
  endDate : ℤ
deriving DecidableEq

/-- Embedding of `getMonthDateRange` from the connector. -/
def getMonthDateRange (year month : ℤ) : DateRange :=
  { startDate := newJsDate year (month - 1) 1
    endDate := newJsDate year month 0 }

/-- Embedding of `getPreviousMonthDateRange` from the connector. -/
def getPreviousMonthDateRange (year month : ℤ) : DateRange :=
  if month = 1 then getMonthDateRange (year - 1) 12
  else getMonthDateRange year (month - 1)

theorem mkJsYear_ge (y : ℤ) : y ≤ mkJsYear y := by
  unfold mkJsYear
  split_ifs <;> omega

theorem newJsDate_start (y m : ℤ) (h1 : 1 ≤ m) (h2 : m ≤ 12) :
    newJsDate y (m - 1) 1 = daysFromCivil (mkJsYear y) m 1 := by
  unfold newJsDate jsMakeDay
  have hq : (m - 1) / 12 = 0 := by omega
  have hr : (m - 1) % 12 + 1 = m := by omega
  rw [hq, hr]
  ring_nf

theorem newJsDate_day_zero (y m : ℤ) (h1 : 1 ≤ m) (h2 : m ≤ 11) :
    newJsDate y m 0 = daysFromCivil (mkJsYear y) (m + 1) 1 - 1 := by
  unfold newJsDate jsMakeDay
  have hq : m / 12 = 0 := by omega
  have hr : m % 12 + 1 = m + 1 := by omega
  rw [hq, hr, daysFromCivil_day]
  ring_nf

theorem newJsDate_day_zero_dec (y : ℤ) :
    newJsDate y 12 0 = daysFromCivil (mkJsYear y + 1) 1 1 - 1 := by
  unfold newJsDate jsMakeDay
  norm_num
  rw [daysFromCivil_day]
  ring_nf

/-! ## The embedded Comparison Engine

`calculateChange` from `google-analytics.connector.ts`:

```ts
export function calculateChange(current: number, previous: number): number {
  if (previous === 0) {
    return current > 0 ? 100 : 0;
  }
  return ((current - previous) / previous) * 100;
}
```
-/

/-- Embedding of `calculateChange` (percentage change of two metric values). -/
def calculateChange (current previous : ℚ) : ℚ :=
  if previous = 0 then (if 0 < current then 100 else 0)
  else (current - previous) / previous * 100

/-- Modelled from the spec: "rounded to 2 decimal places".  The repository has
no rounding helper in the comparison engine itself; the only 2-decimal
rounding in the repository is `Math.round(change * 100) / 100` in the design
document's renderer-side snippet, and `Math.round x = ⌊x + 1/2⌋`.  This
definition exists to compare the spec's wording against `calculateChange`. -/
def round2 (x : ℚ) : ℚ := ((⌊x * 100 + 1/2⌋ : ℤ) : ℚ) / 100

/-! ## The embedded Snapshot Assembler

Data shapes from `google-analytics.connector.ts` and
`snapshot.service.ts`.  Metric values are exact rationals; strings that the
claims never inspect structurally (ids, names, storage paths, error messages)
stay `String`. -/

/-- Daily time-series entry of `GA4Metrics.dailyMetrics`. -/
structure DailyMetric where
  date : String
  sessions : ℚ
  users : ℚ
  newUsers : ℚ
  pageviews : ℚ
  avgSessionDuration : ℚ
  bounceRate : ℚ
  activeUsers : ℚ
  engagementRate : ℚ
  userEngagementDuration : ℚ
deriving DecidableEq

/-- Entry of `GA4Metrics.topPages`. -/
structure TopPage where
  path : String
  views : ℚ
deriving DecidableEq

/-- Entry of `GA4Metrics.channels`. -/
structure ChannelStat where
  name : String
  sessions : ℚ
  users : ℚ
  percentage : ℚ
deriving DecidableEq

/-- Entry of `GA4Metrics.keyEvents`. -/
structure KeyEventStat where
  name : String
  count : ℚ
deriving DecidableEq

/-- Per-channel count of `GA4Metrics.keyEventBreakdowns[].channels`. -/
structure BreakdownChannel where
  name : String
  count : ℚ
deriving DecidableEq

/-- Entry of `GA4Metrics.keyEventBreakdowns`. -/
structure KeyEventBreakdown where
  name : String
  total : ℚ
  channels : List BreakdownChannel
deriving DecidableEq

/-- Embedding of the `GA4Metrics` interface of the connector. -/
structure GA4Metrics where
  sessions : ℚ
  users : ℚ
  newUsers : ℚ
  pageviews : ℚ
  avgSessionDuration : ℚ
  bounceRate : ℚ
  activeUsers : ℚ
  engagementRate : ℚ
  userEngagementDuration : ℚ
  dailyMetrics : List DailyMetric
  topPages : List TopPage
  channels : List ChannelStat
  keyEvents : List KeyEventStat
  keyEventBreakdowns : List KeyEventBreakdown
deriving DecidableEq

/-- The `changes` sub-object of the artifact's `ga4` block. -/
structure ChangeSet where
  sessions : ℚ
  users : ℚ
  newUsers : ℚ
  pageviews : ℚ
  avgSessionDuration : ℚ
  bounceRate : ℚ
deriving DecidableEq

/-- The `changes` block computed by `generateSnapshot` (lines building
`snapshotData.ga4.changes`), one `calculateChange` per tracked metric. -/
def mkChanges (current previous : GA4Metrics) : ChangeSet :=
  { sessions := calculateChange current.sessions previous.sessions
    users := calculateChange current.users previous.users
    newUsers := calculateChange current.newUsers previous.newUsers
    pageviews := calculateChange current.pageviews previous.pageviews
    avgSessionDuration :=
      calculateChange current.avgSessionDuration previous.avgSessionDuration
    bounceRate := calculateChange current.bounceRate previous.bounceRate }

/-- The optional `ga4` block of the artifact. -/
structure Ga4Block where
  propertyId : String
  propertyName : String
  current : GA4Metrics
  previous : GA4Metrics
  changes : ChangeSet
deriving DecidableEq

/-- Snapshot month key: the source renders it as the `YYYY-MM-01` first-of-
month date string. -/
structure MonthKey where
  year : ℤ
  month : ℤ
deriving DecidableEq

/-- Embedding of the `SnapshotData` artifact interface of
`snapshot.service.ts`.  Period bounds are day numbers (ISO date strings in the
source); `generatedAt` is the generation timestamp. -/
structure SnapshotData where
  clientId : String
  clientName : String
  snapshotDate : MonthKey
  periodStart : ℤ
  periodEnd : ℤ
  previousPeriodStart : ℤ
  previousPeriodEnd : ℤ
  templateVersion : String
  generatedAt : ℚ
  ga4 : Option Ga4Block
deriving DecidableEq

/-- The `metrics_summary` JSON projection stored on the metadata row
(`Record<string, number>` with optional `sessions`, `users`, `pageviews`;
all-`none` is the empty record `{}`). -/
structure MetricsSummary where
  sessions : Option ℚ
  users : Option ℚ
  pageviews : Option ℚ
deriving DecidableEq

/-- Row of the `snapshots` metadata table (columns of migration
`001_initial`). -/
structure SnapshotRow where
  id : String
  clientId : String
  snapshotDate : MonthKey
  templateVersion : String
  storagePath : String
  pdfStoragePath : Option String
  metricsSummary : MetricsSummary
  createdAt : ℚ
  expiresAt : Option ℚ
deriving DecidableEq

/-- Embedding of the `SnapshotSummary` interface returned by
`generateSnapshot`. -/
structure SnapshotSummary where
  id : String
  clientId : String
  snapshotDate : MonthKey
  templateVersion : String
  hasPdf : Bool
  metricsSummary : MetricsSummary
  createdAt : ℚ
deriving DecidableEq

/-- Row of the `clients` table as selected by `generateSnapshot`. -/
structure ClientRow where
  id : String
  name : String
deriving DecidableEq

/-- Row of the `data_sources` table as selected by `generateSnapshot`
(`type = "google_analytics"`, `status = "active"`). -/
structure DataSourceRow where
  id : String
  externalAccountId : Option String
  externalAccountName : Option String
deriving DecidableEq

/-- Error classes thrown by the service and route layer
(`NotFoundError` / `ValidationError` from `lib/errors.ts`), plus the
propagated failures of the GA4 connector (`upstream`) and of
`saveSnapshotData`'s file write (`storage`), which the service does not catch
and simply rethrows. -/
inductive GenError where
  | notFound (msg : String)
  | validation (msg : String)
  | upstream (msg : String)
  | storage (msg : String)
deriving DecidableEq

/-- Observable calls `generateSnapshot` makes, in program order: an upstream
GA4 metric fetch for a date range, a successful content-blob write returning a
storage path, and the metadata-row update/insert. -/
inductive Event where
  | fetchMetrics (range : DateRange)
  | storageWrite (path : String)
  | dbUpdate (id : String)
  | dbInsert (id : String)
deriving DecidableEq

/-- Environment supplying the outcome of every effect `generateSnapshot`
performs: the rows its three reads would return, the result of each GA4 fetch,
the result of the content-storage write, the database clock, and the id the
insert would be assigned.  `initialArtifact` is the content blob stored for
this client-month before the call (used to state frame conditions). -/
structure Env where
  client : Option ClientRow
  existing : Option SnapshotRow
  ga4DataSource : Option DataSourceRow
  fetchResult : DateRange → Except String GA4Metrics
  saveResult : Except String String
  now : ℚ
  newId : String
  initialArtifact : Option SnapshotData

/-- Result of one `generateSnapshot` call: the returned summary or thrown
error, the trace of effectful calls made, the `snapshots` row for this
client-month after the call, and the stored content blob after the call. -/
structure GenOutcome where
  result : Except GenError SnapshotSummary
  events : List Event
  dbFinal : Option SnapshotRow
  storedArtifact : Option SnapshotData

/-- Persistence tail of `generateSnapshot` (from `saveSnapshotData` onwards):
write the blob, build `metricsSummary`, then update-or-insert the metadata row
and build the returned summary.  `evs` is the trace accumulated by the fetch
phase. -/
def persistSnapshot (env : Env) (clientId : String) (year month : ℤ)
    (data : SnapshotData) (evs : List Event) : GenOutcome :=
  match env.saveResult with
  | .error e => ⟨.error (.storage e), evs, env.existing, env.initialArtifact⟩
  | .ok storagePath =>
    let metricsSummary : MetricsSummary :=
      match data.ga4 with
      | some g => ⟨some g.current.sessions, some g.current.users, some g.current.pageviews⟩
      | none => ⟨none, none, none⟩
    match env.existing with
    | some r =>
      let updated : SnapshotRow :=
        { r with
            storagePath := storagePath
            metricsSummary := metricsSummary
            templateVersion := "1.0" }
      ⟨.ok ⟨r.id, r.clientId, r.snapshotDate, updated.templateVersion,
            updated.pdfStoragePath.isSome, updated.metricsSummary, r.createdAt⟩,
        evs ++ [.storageWrite storagePath, .dbUpdate r.id],
        some updated, some data⟩
    | none =>
      let row : SnapshotRow :=
        { id := env.newId
          clientId := clientId
          snapshotDate := ⟨year, month⟩
          templateVersion := "1.0"
          storagePath := storagePath
          pdfStoragePath := none
          metricsSummary := metricsSummary
          createdAt := env.now
          expiresAt := some (env.now + 720) }
      ⟨.ok ⟨row.id, row.clientId, row.snapshotDate, row.templateVersion,
            false, row.metricsSummary, row.createdAt⟩,
        evs ++ [.storageWrite storagePath, .dbInsert row.id],
        some row, some data⟩

/-- Embedding of `generateSnapshot` from `snapshot.service.ts`: client
ownership check, conflict short-circuit, GA4 data source resolution, period
computation, concurrent current/previous fetches (`Promise.all` — a rejection
of either propagates), artifact assembly, blob write, metadata upsert. -/
def generateSnapshot (env : Env) (clientId userId : String) (year month : ℤ)
    (regenerate : Bool) : GenOutcome :=
  match env.client with
  | none => ⟨.error (.notFound "Client not found"), [], env.existing, env.initialArtifact⟩
  | some client =>
    if env.existing.isSome && !regenerate then
      ⟨.error (.validation
          "Snapshot already exists for this month. Use regenerate=true to overwrite."),
        [], env.existing, env.initialArtifact⟩
    else
      let currentRange := getMonthDateRange year month
      let previousRange := getPreviousMonthDateRange year month
      let base : SnapshotData :=
        { clientId := clientId
          clientName := client.name
          snapshotDate := ⟨year, month⟩
          periodStart := currentRange.startDate
          periodEnd := currentRange.endDate
          previousPeriodStart := previousRange.startDate
          previousPeriodEnd := previousRange.endDate
          templateVersion := "1.0"
          generatedAt := env.now
          ga4 := none }
      match env.ga4DataSource with
      | some ds =>
        match ds.externalAccountId with
        | some propertyId =>
          let evs := [Event.fetchMetrics currentRange, Event.fetchMetrics previousRange]
          match env.fetchResult currentRange, env.fetchResult previousRange with
          | .ok currentMetrics, .ok previousMetrics =>
            persistSnapshot env clientId year month
              { base with
                  ga4 := some
                    { propertyId := propertyId
                      propertyName := ds.externalAccountName.getD propertyId
                      current := currentMetrics
                      previous := previousMetrics
                      changes := mkChanges currentMetrics previousMetrics } }
              evs
          | .error e, _ => ⟨.error (.upstream e), evs, env.existing, env.initialArtifact⟩
          | .ok _, .error e => ⟨.error (.upstream e), evs, env.existing, env.initialArtifact⟩
        | none => persistSnapshot env clientId year month base []
      | none => persistSnapshot env clientId year month base []

/-- Embedding of the `POST /clients/:clientId/snapshots` handler of
`snapshot.routes.ts` from the point where `month` has been parsed into
`(year, month)` integers (the `YYYY-MM` regex check on the raw string is
elided): reject a month outside 1..12, reject a requested first-of-month
strictly after the current time, otherwise delegate to `generateSnapshot`.
`env.now` plays the role of `new Date()`; the comparison of the two `Date`
values is the comparison of their time values, here in days. -/
def snapshotRoutePost (env : Env) (clientId userId : String) (year month : ℤ)
    (regenerate : Bool) : GenOutcome :=
  if month < 1 ∨ 12 < month then
    ⟨.error (.validation "Invalid month"), [], env.existing, env.initialArtifact⟩
  else if ((newJsDate year (month - 1) 1 : ℤ) : ℚ) > env.now then
    ⟨.error (.validation "Cannot generate snapshot for future months"),
      [], env.existing, env.initialArtifact⟩
  else
    generateSnapshot env clientId userId year month regenerate

/-- Summary projection the claim about `metrics_summary` describes: re-read
the stored artifact and project `{sessions, users, pageviews}` out of its
`ga4.current` block, or the empty record if the artifact has no `ga4` block. -/
def summaryOfArtifact (data : SnapshotData) : MetricsSummary :=
  match data.ga4 with
  | some g => ⟨some g.current.sessions, some g.current.users, some g.current.pageviews⟩
  | none => ⟨none, none, none⟩

/-- Trace predicate: every metadata write (`dbUpdate`/`dbInsert`) is preceded
by a successful content-storage write.  `seenStore` records whether a storage
write has already occurred. -/
def metadataAfterStore (seenStore : Bool) : List Event → Bool
  | [] => true
  | .storageWrite _ :: rest => metadataAfterStore true rest
  | .dbUpdate _ :: rest => seenStore && metadataAfterStore seenStore rest
  | .dbInsert _ :: rest => seenStore && metadataAfterStore seenStore rest
  | .fetchMetrics _ :: rest => metadataAfterStore seenStore rest

/-- Trace predicate: the trace contains a metadata write. -/
def hasMetadataWrite : List Event → Bool
  | [] => false
  | .dbUpdate _ :: _ => true
  | .dbInsert _ :: _ => true
  | _ :: rest => hasMetadataWrite rest

/-- Trace predicate: the trace contains an upstream metric fetch. -/
def hasFetch : List Event → Bool
  | [] => false
  | .fetchMetrics _ :: _ => true
  | _ :: rest => hasFetch rest

/-! ## Concrete sample environments used to instantiate the theorems -/

/-- Environment with no client row (every read empty). -/
def envSample : Env :=
  { client := none
    existing := none
    ga4DataSource := none
    fetchResult := fun _ => .error "unused"
    saveResult := .ok "storage/snapshots/client-1/2025-03-01/snapshot.json"
    now := 0
    newId := "snap-1"
    initialArtifact := none }

/-- A pre-existing metadata row for client-1, March 2025, with a rendered PDF
recorded. -/
def sampleRow : SnapshotRow :=
  { id := "snap-1"
    clientId := "client-1"
    snapshotDate := ⟨2025, 3⟩
    templateVersion := "1.0"
    storagePath := "storage/path"
    pdfStoragePath := some "pdf/path"
    metricsSummary := ⟨some 10, some 20, some 30⟩
    createdAt := 100
    expiresAt := some 820 }

/-- The artifact blob stored alongside `sampleRow` before regeneration. -/
def sampleArtifact : SnapshotData :=
  { clientId := "client-1"
    clientName := "Acme"
    snapshotDate := ⟨2025, 3⟩
    periodStart := 20148
    periodEnd := 20178
    previousPeriodStart := 20120
    previousPeriodEnd := 20147
    templateVersion := "1.0"
    generatedAt := 100
    ga4 := none }

/-- Environment in which a snapshot for the requested month already exists. -/
def envConflict : Env :=
  { client := some ⟨"client-1", "Acme"⟩
    existing := some sampleRow
    ga4DataSource := none
    fetchResult := fun _ => .error "unused"
    saveResult := .ok "storage/path-v2"
    now := 300
    newId := "snap-2"
    initialArtifact := some sampleArtifact }

/-- Environment in which the content-storage write fails. -/
def envSaveFail : Env :=
  { envSample with
      client := some ⟨"client-1", "Acme"⟩
      saveResult := .error "ENOSPC: no space left on device" }

/-- Environment with an active GA4 data source whose metric fetch raises a
non-retryable upstream failure (revoked OAuth credential). -/
def envFetchFail : Env :=
  { client := some ⟨"client-1", "Acme"⟩
    existing := none
    ga4DataSource := some ⟨"ds-1", some "123456", some "Acme GA4"⟩
    fetchResult := fun _ => .error "invalid_grant: credential revoked"
    saveResult := .ok "storage/snapshots/client-1/2025-03-01/snapshot.json"
    now := 20162
    newId := "snap-1"
    initialArtifact := none }

/-- Environment for a regeneration over `sampleRow` (GA4 not connected, so the
fresh artifact carries no `ga4` block). -/
def envRegen : Env :=
  { client := some ⟨"client-1", "Acme"⟩
    existing := some sampleRow
    ga4DataSource := none
    fetchResult := fun _ => .error "unused"
    saveResult := .ok "storage/path-v2"
    now := 300
    newId := "unused"
    initialArtifact := some sampleArtifact }

/-! ## C1 — `calculateChange` edge-case policy and (absence of) rounding -/

/-- C1 (counterexample): the claim says the `previous ≠ 0` branch is rounded
to 2 decimal places, but `calculateChange 1 3` returns the unrounded
`-200/3`, which differs from the 2-decimal rounding of
`(1 - 3) / 3 * 100`. -/
theorem calculateChange_not_rounded :
    calculateChange 1 3 ≠ round2 ((1 - 3) / 3 * 100) := by
  have h1 : calculateChange 1 3 = -200/3 := by
    unfold calculateChange
    norm_num
  have hfl : ⌊((1 - 3) / 3 * 100 * 100 + 1/2 : ℚ)⌋ = (-6667 : ℤ) := by
    rw [Int.floor_eq_iff]
    norm_num
  have h2 : round2 ((1 - 3) / 3 * 100) = -6667/100 := by
    unfold round2
    rw [hfl]
    norm_num
  rw [h1, h2]
  norm_num

/-- C1 (amended): `calculateChange` returns `100` when `previous = 0 < current`
and `0` when `previous = 0 ≥ current`, and for `previous ≠ 0` it returns the
exact percentage change `(current / previous - 1) * 100` with no rounding. -/
theorem calculateChange_exact_spec (current previous : ℚ) :
    (previous = 0 → calculateChange current previous = if 0 < current then 100 else 0)
    ∧ (previous ≠ 0 → calculateChange current previous = (current / previous - 1) * 100) := by
  constructor
  · intro h
    simp [calculateChange, h]
  · intro h
    simp only [calculateChange, if_neg h]
    field_simp

/-- C1 (witness): the spec's own example `percentChange(150, 100) = 50`. -/
theorem calculateChange_exact_spec_witness :
    calculateChange 150 100 = ((150 : ℚ) / 100 - 1) * 100 :=
  (calculateChange_exact_spec 150 100).2 (by norm_num)

/-! ## C2 — previous-month range: full previous calendar month, adjacency -/

/-- C2 (counterexample): at `(year, month) = (100, 1)` the ECMAScript
two-digit-year rule maps the rolled-back year 99 to 1999 while year 100 stays
year 100, so the previous range's end (1999-12-31) is not the day before the
current range's start (0100-01-01). -/
theorem previousMonthRange_not_adjacent_year100 :
    (getPreviousMonthDateRange 100 1).endDate + 1 ≠ (getMonthDateRange 100 1).startDate := by
  decide

/-- C2 (amended): for `1 ≤ month ≤ 12` the previous range is exactly the full
immediately preceding calendar month — first day to last day, with the length
given by that month's actual day count — relative to the constructor-mapped
year `mkJsYear year` (ECMAScript reads a year argument 0..99 as 1900+year),
rolling back to December of the preceding year when `month = 1`; and its end
date is exactly one day before the current range's start date except at the
two-digit-year window boundary `(year, month) ∈ {(0,1), (100,1)}`. -/
theorem previousMonthRange_full_previous_month (year month : ℤ)
    (h1 : 1 ≤ month) (h2 : month ≤ 12) :
    (getPreviousMonthDateRange year month).startDate
        = daysFromCivil (if month = 1 then mkJsYear (year - 1) else mkJsYear year)
            (if month = 1 then 12 else month - 1) 1
    ∧ (getPreviousMonthDateRange year month).endDate
        = daysFromCivil (if month = 1 then mkJsYear (year - 1) else mkJsYear year)
            (if month = 1 then 12 else month - 1)
            (daysInMonth (if month = 1 then mkJsYear (year - 1) else mkJsYear year)
              (if month = 1 then 12 else month - 1))
    ∧ (¬(month = 1 ∧ (year = 0 ∨ year = 100)) →
        (getPreviousMonthDateRange year month).endDate + 1
          = (getMonthDateRange year month).startDate) := by
  rcases eq_or_ne month 1 with hm | hm
  · subst hm
    have hstart : newJsDate (year - 1) (12 - 1) 1 = daysFromCivil (mkJsYear (year - 1)) 12 1 :=
      newJsDate_start (year - 1) 12 (by norm_num) (by norm_num)
    have hend := newJsDate_day_zero_dec (year - 1)
    have hdim : daysInMonth (mkJsYear (year - 1)) 12 = 31 := by
      unfold daysInMonth
      norm_num
    have hlen := daysFromCivil_next_year (mkJsYear (year - 1))
    have hday := daysFromCivil_day (mkJsYear (year - 1)) 12 31
    norm_num at hstart
    refine ⟨?_, ?_, ?_⟩
    · simp only [getPreviousMonthDateRange, getMonthDateRange]
      norm_num
      exact hstart
    · simp only [getPreviousMonthDateRange, getMonthDateRange]
      norm_num
      rw [hend, hdim, hday]
      omega
    · intro hne
      have hcur : newJsDate year (1 - 1) 1 = daysFromCivil (mkJsYear year) 1 1 :=
        newJsDate_start year 1 (by norm_num) (by norm_num)
      have hy : mkJsYear year = mkJsYear (year - 1) + 1 := by
        unfold mkJsYear
        split_ifs <;> omega
      rw [hy, daysFromCivil_next_year] at hcur
      norm_num at hcur
      simp only [getPreviousMonthDateRange, getMonthDateRange]
      norm_num
      rw [hend, hcur]
      omega
  · have hm2 : 2 ≤ month := by omega
    have hstart : newJsDate year (month - 1 - 1) 1
        = daysFromCivil (mkJsYear year) (month - 1) 1 :=
      newJsDate_start year (month - 1) (by omega) (by omega)
    have hend : newJsDate year (month - 1) 0
        = daysFromCivil (mkJsYear year) (month - 1 + 1) 1 - 1 :=
      newJsDate_day_zero year (month - 1) (by omega) (by omega)
    have hlen := daysFromCivil_next_month (mkJsYear year) (month - 1) (by omega) (by omega)
    have hcur : newJsDate year (month - 1) 1 = daysFromCivil (mkJsYear year) month 1 :=
      newJsDate_start year month h1 h2
    have hday := daysFromCivil_day (mkJsYear year) (month - 1)
      (daysInMonth (mkJsYear year) (month - 1))
    have hmm : month - 1 + 1 = month := by ring
    rw [hmm] at hend hlen
    simp only [getPreviousMonthDateRange, if_neg hm, getMonthDateRange]
    refine ⟨by simpa [hm] using hstart, ?_, fun _ => by rw [hend, hcur]; omega⟩
    · rw [hend, hday]
      omega

/-- C2 (witness): the spec's example — the previous period for March 2025 is
February 1–28 2025, ending the day before March 1 2025. -/
theorem previousMonthRange_full_previous_month_witness :
    (getPreviousMonthDateRange 2025 3).startDate = daysFromCivil 2025 2 1
    ∧ (getPreviousMonthDateRange 2025 3).endDate = daysFromCivil 2025 2 28
    ∧ (getPreviousMonthDateRange 2025 3).endDate + 1 = (getMonthDateRange 2025 3).startDate :=
  ⟨by decide, by decide,
    (previousMonthRange_full_previous_month 2025 3 (by norm_num) (by norm_num)).2.2
      (by norm_num)⟩

/-! ## C8 — where the 1..12 month validation lives -/

/-- C8 (counterexample): `getMonthDateRange` does not error on a month outside
1..12 — it returns an ordinary date range, normalising by JavaScript month
rollover: month 13 of 2025 yields exactly the January 2026 range. -/
theorem getMonthDateRange_total_month13 :
    getMonthDateRange 2025 13 = getMonthDateRange 2026 1
    ∧ (getMonthDateRange 2025 13).startDate = daysFromCivil 2026 1 1 := by
  decide

/-- C8 (amended): the Period Calculator is a pure, deterministic, total
function that never errors — a month outside 1..12 is normalised by date
rollover (month 13 is January of the following year, month 0 is December of
the preceding year); the outside-1..12 rejection is performed by the snapshot
route's validation before the calculator is reached, with no effects. -/
theorem month_validation_in_route_not_calculator :
    (∀ (env : Env) (cid uid : String) (year month : ℤ) (reg : Bool),
        (month < 1 ∨ 12 < month) →
        snapshotRoutePost env cid uid year month reg =
          ⟨.error (.validation "Invalid month"), [], env.existing, env.initialArtifact⟩)
    ∧ getMonthDateRange 2025 0 = getMonthDateRange 2024 12 := by
  constructor
  · intro env cid uid year month reg h
    unfold snapshotRoutePost
    rw [if_pos h]
  · decide

/-- C8 (witness): requesting month 13 is rejected by the route with a
validation error and an empty effect trace. -/
theorem month_validation_in_route_not_calculator_witness :
    snapshotRoutePost envSample "client-1" "u1" 2025 13 false =
      ⟨.error (.validation "Invalid month"), [], none, none⟩ :=
  month_validation_in_route_not_calculator.1 envSample "client-1" "u1" 2025 13 false
    (by norm_num)

/-! ## C7 — future months are rejected before any effects -/

/-- C7: when the requested `(year, month)` is strictly after the calendar
month `(cy, cm)` containing the generation time `env.now`, the route fails
with the future-month validation error, makes no upstream calls, and leaves
the metadata row and stored artifact untouched.  The hypotheses on `env.now`
say exactly that `now` lies within month `(cy, cm)`: at or after its first
day and before the first day of the following month. -/
theorem future_month_rejected_no_effects (env : Env) (cid uid : String)
    (year month cy cm : ℤ) (reg : Bool)
    (hm1 : 1 ≤ month) (hm2 : month ≤ 12) (hc1 : 1 ≤ cm) (hc2 : cm ≤ 12)
    (hnow1 : ((monthFirstDay (monthRank cy cm) : ℤ) : ℚ) ≤ env.now)
    (hnow2 : env.now < ((monthFirstDay (monthRank cy cm + 1) : ℤ) : ℚ))
    (hafter : cy < year ∨ (cy = year ∧ cm < month)) :
    snapshotRoutePost env cid uid year month reg =
      ⟨.error (.validation "Cannot generate snapshot for future months"),
        [], env.existing, env.initialArtifact⟩ := by
  have hyy := mkJsYear_ge year
  have hrank : monthRank cy cm + 1 ≤ monthRank (mkJsYear year) month := by
    unfold monthRank
    rcases hafter with h | ⟨h, h2a⟩ <;> omega
  have hmono := monthFirstDay_mono hrank
  have hstart : newJsDate year (month - 1) 1 = monthFirstDay (monthRank (mkJsYear year) month) := by
    rw [monthFirstDay_rank _ _ hm1 hm2, newJsDate_start year month hm1 hm2]
  have hfut : ((newJsDate year (month - 1) 1 : ℤ) : ℚ) > env.now := by
    rw [hstart]
    calc env.now < ((monthFirstDay (monthRank cy cm + 1) : ℤ) : ℚ) := hnow2
      _ ≤ ((monthFirstDay (monthRank (mkJsYear year) month) : ℤ) : ℚ) := by
          exact_mod_cast hmono
  unfold snapshotRoutePost
  rw [if_neg (by omega), if_pos hfut]

/-- C7 (witness): with the clock inside March 2025 (day 20162 = 2025-03-15),
requesting April 2025 is rejected with the future-month validation error and
an empty effect trace. -/
theorem future_month_rejected_no_effects_witness :
    snapshotRoutePost { envSample with now := 20162 } "client-1" "u1" 2025 4 false =
      ⟨.error (.validation "Cannot generate snapshot for future months"),
        [], none, none⟩ := by
  have h1 : monthFirstDay (monthRank 2025 3) = 20148 := by decide
  have h2 : monthFirstDay (monthRank 2025 3 + 1) = 20179 := by decide
  exact future_month_rejected_no_effects { envSample with now := 20162 }
    "client-1" "u1" 2025 4 2025 3 false
    (by norm_num) (by norm_num) (by norm_num) (by norm_num)
    (by rw [h1]; norm_num [envSample])
    (by rw [h2]; norm_num [envSample])
    (by norm_num)

/-! ## C4 — conflict short-circuit -/

/-- C4: when a metadata row already exists for the requested client-month and
`regenerate` is false, `generateSnapshot` fails with the conflict error
(surfaced as the service's `ValidationError` carrying the already-exists
message), performs no upstream metric fetch and no write of any kind, and
leaves the existing metadata row and stored artifact untouched. -/
theorem conflict_short_circuit (env : Env) (cid uid : String) (year month : ℤ)
    (c : ClientRow) (hc : env.client = some c) (he : env.existing.isSome = true) :
    generateSnapshot env cid uid year month false =
      ⟨.error (.validation
          "Snapshot already exists for this month. Use regenerate=true to overwrite."),
        [], env.existing, env.initialArtifact⟩ := by
  unfold generateSnapshot
  rw [hc]
  simp [he]

/-- C4 (witness): second non-regenerate call for March 2025 of client-1 hits
the conflict, with an empty trace and the first row and artifact intact. -/
theorem conflict_short_circuit_witness :
    generateSnapshot envConflict "client-1" "u1" 2025 3 false =
      ⟨.error (.validation
          "Snapshot already exists for this month. Use regenerate=true to overwrite."),
        [], some sampleRow, some sampleArtifact⟩ :=
  conflict_short_circuit envConflict "client-1" "u1" 2025 3 ⟨"client-1", "Acme"⟩ rfl rfl

/-! ## C6 — metadata write strictly follows successful content write -/

/-- C6: in every `generateSnapshot` trace each metadata-row write is preceded
by a successful content-storage write, and when the content-storage write
fails the call errors with that storage failure's trace containing no
metadata write, leaving the metadata row and stored artifact unchanged — no
metadata row ever points at content that was not written. -/
theorem metadata_write_after_storage (env : Env) (cid uid : String)
    (year month : ℤ) (reg : Bool) :
    metadataAfterStore false (generateSnapshot env cid uid year month reg).events = true
    ∧ (∀ e : String, env.saveResult = .error e →
        hasMetadataWrite (generateSnapshot env cid uid year month reg).events = false
        ∧ (generateSnapshot env cid uid year month reg).dbFinal = env.existing
        ∧ (generateSnapshot env cid uid year month reg).storedArtifact
            = env.initialArtifact) := by
  unfold generateSnapshot persistSnapshot
  rcases hcl : env.client with _ | c <;> simp only [hcl]
  · simp [metadataAfterStore, hasMetadataWrite]
  · by_cases hex : (env.existing.isSome && !reg) = true
    · simp [hex, metadataAfterStore, hasMetadataWrite]
    · simp only [hex, Bool.false_eq_true, if_false]
      rcases hds : env.ga4DataSource with _ | ds <;> simp only [hds]
      · rcases hsv : env.saveResult with e | p <;> simp only [hsv] <;>
          rcases hexi : env.existing with _ | r <;> (try simp only [hexi]) <;>
          simp [hsv, metadataAfterStore, hasMetadataWrite]
      · rcases hacc : ds.externalAccountId with _ | pid <;> simp only [hacc]
        · rcases hsv : env.saveResult with e | p <;> simp only [hsv] <;>
            rcases hexi : env.existing with _ | r <;> (try simp only [hexi]) <;>
            simp [hsv, metadataAfterStore, hasMetadataWrite]
        · rcases hf1 : env.fetchResult (getMonthDateRange year month) with e1 | m1 <;>
            rcases hf2 : env.fetchResult (getPreviousMonthDateRange year month) with e2 | m2 <;>
            (try simp only [hf1, hf2]) <;>
            rcases hsv : env.saveResult with e | p <;> (try simp only [hsv]) <;>
            rcases hexi : env.existing with _ | r <;> (try simp only [hexi]) <;>
            simp [hsv, metadataAfterStore, hasMetadataWrite]

/-- C6 (witness): with the content write failing on disk, generation makes no
metadata write and leaves the previous state intact. -/
theorem metadata_write_after_storage_witness :
    metadataAfterStore false
        (generateSnapshot envSaveFail "client-1" "u1" 2025 3 false).events = true
    ∧ hasMetadataWrite
        (generateSnapshot envSaveFail "client-1" "u1" 2025 3 false).events = false
    ∧ (generateSnapshot envSaveFail "client-1" "u1" 2025 3 false).dbFinal = none
    ∧ (generateSnapshot envSaveFail "client-1" "u1" 2025 3 false).storedArtifact = none := by
  obtain ⟨h1, h2⟩ :=
    metadata_write_after_storage envSaveFail "client-1" "u1" 2025 3 false
  obtain ⟨h3, h4, h5⟩ := h2 "ENOSPC: no space left on device" rfl
  exact ⟨h1, h3, h4, h5⟩

/-! ## C3 — behaviour on a non-retryable upstream failure -/

/-- C3: with an active GA4 source whose metric fetch raises a non-retryable
upstream failure (revoked credential), `generateSnapshot` does not omit the
source's block and continue — the rejection propagates out of `Promise.all`
and the whole generation fails, with nothing stored and no metadata row
written. -/
theorem fetch_failure_fails_generation :
    (generateSnapshot envFetchFail "client-1" "u1" 2025 3 false).result
        = .error (.upstream "invalid_grant: credential revoked")
    ∧ (generateSnapshot envFetchFail "client-1" "u1" 2025 3 false).storedArtifact = none
    ∧ (generateSnapshot envFetchFail "client-1" "u1" 2025 3 false).dbFinal = none :=
  ⟨rfl, rfl, rfl⟩

/-! ## C5 — regeneration and the recorded rendering pointer -/

/-- C5: regenerating March 2025 over a row whose `pdf_storage_path` is set
replaces the artifact (`storage_path` becomes the new path) but leaves
`pdf_storage_path` pointing at the PDF rendered against the replaced
artifact, and the returned summary still reports `hasPdf = true` — the stale
rendering is presented as current rather than cleared. -/
theorem regenerate_keeps_stale_pdf_pointer :
    (generateSnapshot envRegen "client-1" "u1" 2025 3 true).result =
      .ok ⟨"snap-1", "client-1", ⟨2025, 3⟩, "1.0", true, ⟨none, none, none⟩, 100⟩
    ∧ (generateSnapshot envRegen "client-1" "u1" 2025 3 true).dbFinal =
      some ⟨"snap-1", "client-1", ⟨2025, 3⟩, "1.0", "storage/path-v2",
        some "pdf/path", ⟨none, none, none⟩, 100, some 820⟩ :=
  ⟨rfl, rfl⟩

/-! ## C9 — `metrics_summary` is derivable from the stored artifact -/

/-- C9: after every successful generation the metadata row's
`metrics_summary` equals the `{sessions, users, pageviews}` projection of the
stored artifact's `ga4.current` block (the empty record when the artifact has
no GA4 block), and the returned summary agrees — the cached summary is always
re-derivable from the artifact. -/
theorem metrics_summary_derivable_from_artifact (env : Env) (cid uid : String)
    (year month : ℤ) (reg : Bool) (s : SnapshotSummary)
    (h : (generateSnapshot env cid uid year month reg).result = .ok s) :
    ∃ row data,
      (generateSnapshot env cid uid year month reg).dbFinal = some row
      ∧ (generateSnapshot env cid uid year month reg).storedArtifact = some data
      ∧ row.metricsSummary = summaryOfArtifact data
      ∧ s.metricsSummary = summaryOfArtifact data := by
  unfold generateSnapshot persistSnapshot at h ⊢
  rcases hcl : env.client with _ | c <;> simp only [hcl] at h ⊢
  · exact absurd h (by simp)
  · by_cases hex : (env.existing.isSome && !reg) = true
    · rw [if_pos hex] at h
      exact absurd h (by simp)
    · simp only [hex, Bool.false_eq_true, if_false] at h ⊢
      rcases hds : env.ga4DataSource with _ | ds <;> simp only [hds] at h ⊢
      · rcases hsv : env.saveResult with e | p <;> simp only [hsv] at h ⊢
        · exact absurd h (by simp)
        · rcases hexi : env.existing with _ | r <;> simp only [hexi] at h ⊢ <;>
            · refine ⟨_, _, rfl, rfl, rfl, ?_⟩
              simp only [Except.ok.injEq] at h
              subst h
              rfl
      · rcases hacc : ds.externalAccountId with _ | pid <;> simp only [hacc] at h ⊢
        · rcases hsv : env.saveResult with e | p <;> simp only [hsv] at h ⊢
          · exact absurd h (by simp)
          · rcases hexi : env.existing with _ | r <;> simp only [hexi] at h ⊢ <;>
              · refine ⟨_, _, rfl, rfl, rfl, ?_⟩
                simp only [Except.ok.injEq] at h
                subst h
                rfl
        · rcases hf1 : env.fetchResult (getMonthDateRange year month) with e1 | m1 <;>
            rcases hf2 : env.fetchResult (getPreviousMonthDateRange year month) with e2 | m2 <;>
            simp only [hf1, hf2] at h ⊢
          · exact absurd h (by simp)
          · exact absurd h (by simp)
          · exact absurd h (by simp)
          · rcases hsv : env.saveResult with e | p <;> simp only [hsv] at h ⊢
            · exact absurd h (by simp)
            · rcases hexi : env.existing with _ | r <;> simp only [hexi] at h ⊢ <;>
                · refine ⟨_, _, rfl, rfl, rfl, ?_⟩
                  simp only [Except.ok.injEq] at h
                  subst h
                  rfl

/-- C9 (witness): the regeneration of March 2025 (GA4 not connected) stores an
artifact with no `ga4` block and records the empty summary derived from it. -/
theorem metrics_summary_derivable_from_artifact_witness :
    ∃ row data,
      (generateSnapshot envRegen "client-1" "u1" 2025 3 true).dbFinal = some row
      ∧ (generateSnapshot envRegen "client-1" "u1" 2025 3 true).storedArtifact = some data
      ∧ row.metricsSummary = summaryOfArtifact data
      ∧ SnapshotSummary.metricsSummary
          ⟨"snap-1", "client-1", ⟨2025, 3⟩, "1.0", true, ⟨none, none, none⟩, 100⟩
          = summaryOfArtifact data :=
  metrics_summary_derivable_from_artifact envRegen "client-1" "u1" 2025 3 true
    ⟨"snap-1", "client-1", ⟨2025, 3⟩, "1.0", true, ⟨none, none, none⟩, 100⟩ rfl

/-! ## C10 — regeneration frame: row identity, creation time, retention -/

/-- C10: a successful regeneration updates the existing metadata row in place,
writing only `storage_path`, `metrics_summary` and `template_version`: the
row's `id`, `client_id`, `snapshot_date`, `created_at`, `expires_at` (and
`pdf_storage_path`) are unchanged, and the returned summary carries the
original row id and creation time. -/
theorem regenerate_preserves_row_identity (env : Env) (cid uid : String)
    (year month : ℤ) (r0 : SnapshotRow) (s : SnapshotSummary)
    (hex : env.existing = some r0)
    (h : (generateSnapshot env cid uid year month true).result = .ok s) :
    ∃ row,
      (generateSnapshot env cid uid year month true).dbFinal = some row
      ∧ row.id = r0.id
      ∧ row.clientId = r0.clientId
      ∧ row.snapshotDate = r0.snapshotDate
      ∧ row.createdAt = r0.createdAt
      ∧ row.expiresAt = r0.expiresAt
      ∧ row.pdfStoragePath = r0.pdfStoragePath
      ∧ row.templateVersion = "1.0"
      ∧ s.id = r0.id
      ∧ s.createdAt = r0.createdAt := by
  unfold generateSnapshot persistSnapshot at h ⊢
  rcases hcl : env.client with _ | c <;> simp only [hcl] at h ⊢
  · exact absurd h (by simp)
  · simp only [hex, Option.isSome_some, Bool.not_true, Bool.and_false,
      Bool.false_eq_true, if_false] at h ⊢
    rcases hds : env.ga4DataSource with _ | ds <;> simp only [hds] at h ⊢
    · rcases hsv : env.saveResult with e | p <;> simp only [hsv] at h ⊢
      · exact absurd h (by simp)
      · refine ⟨_, rfl, rfl, rfl, rfl, rfl, rfl, rfl, rfl, ?_, ?_⟩ <;>
          · simp only [Except.ok.injEq] at h
            subst h
            rfl
    · rcases hacc : ds.externalAccountId with _ | pid <;> simp only [hacc] at h ⊢
      · rcases hsv : env.saveResult with e | p <;> simp only [hsv] at h ⊢
        · exact absurd h (by simp)
        · refine ⟨_, rfl, rfl, rfl, rfl, rfl, rfl, rfl, rfl, ?_, ?_⟩ <;>
            · simp only [Except.ok.injEq] at h
              subst h
              rfl
      · rcases hf1 : env.fetchResult (getMonthDateRange year month) with e1 | m1 <;>
          rcases hf2 : env.fetchResult (getPreviousMonthDateRange year month) with e2 | m2 <;>
          simp only [hf1, hf2] at h ⊢
        · exact absurd h (by simp)
        · exact absurd h (by simp)
        · exact absurd h (by simp)
        · rcases hsv : env.saveResult with e | p <;> simp only [hsv] at h ⊢
          · exact absurd h (by simp)
          · refine ⟨_, rfl, rfl, rfl, rfl, rfl, rfl, rfl, rfl, ?_, ?_⟩ <;>
              · simp only [Except.ok.injEq] at h
                subst h
                rfl

/-- C10 (witness): the March 2025 regeneration keeps id `snap-1`, the original
creation time, retention boundary and client binding of the first row. -/
theorem regenerate_preserves_row_identity_witness :
    ∃ row,
      (generateSnapshot envRegen "client-1" "u1" 2025 3 true).dbFinal = some row
      ∧ row.id = sampleRow.id
      ∧ row.clientId = sampleRow.clientId
      ∧ row.snapshotDate = sampleRow.snapshotDate
      ∧ row.createdAt = sampleRow.createdAt
      ∧ row.expiresAt = sampleRow.expiresAt
      ∧ row.pdfStoragePath = sampleRow.pdfStoragePath
      ∧ row.templateVersion = "1.0"
      ∧ SnapshotSummary.id
          ⟨"snap-1", "client-1", ⟨2025, 3⟩, "1.0", true, ⟨none, none, none⟩, 100⟩
          = sampleRow.id
      ∧ SnapshotSummary.createdAt
          ⟨"snap-1", "client-1", ⟨2025, 3⟩, "1.0", true, ⟨none, none, none⟩, 100⟩
          = sampleRow.createdAt :=
  regenerate_preserves_row_identity envRegen "client-1" "u1" 2025 3 sampleRow
    ⟨"snap-1", "client-1", ⟨2025, 3⟩, "1.0", true, ⟨none, none, none⟩, 100⟩ rfl rfl

end AgencyReports
